import Mathlib

/-!
Shallow embedding of the role-scoped request/authorization layer of the
go-front-connect console: the Configuration Store and the Identity Store
(two localStorage-backed JSON records) and the Request Dispatcher
(apiRequest), translated from src/lib/api.ts and src/lib/auth.ts.

localStorage is modelled as a map from string keys to stored text.  A stored
text is represented by its JSON denotation: the serialized form of a
configuration record, the serialized form of an identity record, the empty
string (falsy in JS and rejected by JSON.parse), or any other text that
JSON.parse rejects.  JSON.stringify always yields parsable text whose parse
returns a deeply equal value, which the first two constructors capture.
-/

/-- The closed role enumeration of auth.ts: UserRole. -/
inductive UserRole where
  | owner
  | groupAdmin
  | user
  deriving Repr, DecidableEq

/-- The ApiConfig record of api.ts; the two secrets are optional fields. -/
structure ApiConfig where
  baseUrl : String
  ownerPassword : Option String := none
  userPassword : Option String := none
  deriving Repr, DecidableEq

/-- The UserAuth record of auth.ts. -/
structure UserAuth where
  role : UserRole
  userId : Option Int := none
  groupId : Option Int := none
  email : Option String := none
  deriving Repr, DecidableEq

/-- A stored localStorage value, identified by its JSON denotation. -/
inductive StoredText where
  | jsonOfConfig (c : ApiConfig)
  | jsonOfAuth (a : UserAuth)
  | emptyText
  | badText
  deriving Repr, DecidableEq

/-- The localStorage state: getItem returns none for a missing key. -/
def Storage : Type := String → Option StoredText

/-- The fixed key of the Configuration Store (API_CONFIG_KEY in api.ts). -/
def API_CONFIG_KEY : String := "gask_api_config"

/-- The fixed key of the Identity Store (AUTH_KEY in auth.ts). -/
def AUTH_KEY : String := "gask_user_auth"

/-- localStorage.setItem. -/
def setItem (σ : Storage) (k : String) (v : StoredText) : Storage :=
  fun q => if q = k then some v else σ q

/-- localStorage.removeItem. -/
def removeItem (σ : Storage) (k : String) : Storage :=
  fun q => if q = k then none else σ q

/-- JS truthiness of the stored string: only the empty string is falsy. -/
def StoredText.truthy : StoredText → Bool
  | .emptyText => false
  | _ => true

/-- A value JSON.parse can return here: one of the two record shapes.  The
layer itself only ever writes these two shapes, each under its own key. -/
inductive JsVal where
  | cfg (c : ApiConfig)
  | auth (a : UserAuth)
  deriving Repr, DecidableEq

/-- JSON.parse on the stored text: the serialized records parse back to a
deeply equal value, the empty string and malformed text raise. -/
def jsonParse : StoredText → Except Unit JsVal
  | .jsonOfConfig c => Except.ok (JsVal.cfg c)
  | .jsonOfAuth a => Except.ok (JsVal.auth a)
  | .emptyText => Except.error ()
  | .badText => Except.error ()

/-- JS property access v.baseUrl: undefined (none) on a non-config value. -/
def JsVal.baseUrlProp : JsVal → Option String
  | .cfg c => some c.baseUrl
  | .auth _ => none

/-- JS property access v.ownerPassword. -/
def JsVal.ownerPasswordProp : JsVal → Option String
  | .cfg c => c.ownerPassword
  | .auth _ => none

/-- JS property access v.userPassword. -/
def JsVal.userPasswordProp : JsVal → Option String
  | .cfg c => c.userPassword
  | .auth _ => none

/-- JS property access v.role: undefined (none) on a non-auth value. -/
def JsVal.roleProp : JsVal → Option UserRole
  | .cfg _ => none
  | .auth a => some a.role

/-- JS property access v.groupId. -/
def JsVal.groupIdProp : JsVal → Option Int
  | .cfg _ => none
  | .auth a => a.groupId

/-- getApiConfig of api.ts: absent key and falsy text read as null, a parse
failure is caught and read as null, otherwise the parsed value. -/
def getApiConfig (σ : Storage) : Option JsVal :=
  match σ API_CONFIG_KEY with
  | none => none
  | some stored =>
    if stored.truthy then
      match jsonParse stored with
      | Except.ok v => some v
      | Except.error _ => none
    else none

/-- saveApiConfig of api.ts: setItem of the serialized record. -/
def saveApiConfig (σ : Storage) (config : ApiConfig) : Storage :=
  setItem σ API_CONFIG_KEY (StoredText.jsonOfConfig config)

/-- clearApiConfig of api.ts. -/
def clearApiConfig (σ : Storage) : Storage :=
  removeItem σ API_CONFIG_KEY

/-- JS truthiness of an optional string: undefined and "" are falsy. -/
def strTruthy : Option String → Bool
  | none => false
  | some s => !s.isEmpty

/-- isApiConfigured of api.ts. -/
def isApiConfigured (σ : Storage) : Bool :=
  match getApiConfig σ with
  | none => false
  | some config =>
    strTruthy config.baseUrlProp
      && (strTruthy config.ownerPasswordProp || strTruthy config.userPasswordProp)

/-- getUserAuth of auth.ts: same absent-on-missing-or-malformed reading as
getApiConfig, on the identity key. -/
def getUserAuth (σ : Storage) : Option JsVal :=
  match σ AUTH_KEY with
  | none => none
  | some stored =>
    if stored.truthy then
      match jsonParse stored with
      | Except.ok v => some v
      | Except.error _ => none
    else none

/-- saveUserAuth of auth.ts. -/
def saveUserAuth (σ : Storage) (auth : UserAuth) : Storage :=
  setItem σ AUTH_KEY (StoredText.jsonOfAuth auth)

/-- clearUserAuth of auth.ts. -/
def clearUserAuth (σ : Storage) : Storage :=
  removeItem σ AUTH_KEY

/-- hasRole of auth.ts: auth&.role === role, false when auth is null. -/
def hasRole (σ : Storage) (role : UserRole) : Bool :=
  match getUserAuth σ with
  | none => false
  | some auth => auth.roleProp == some role

/-- The roleHierarchy record of hasRoleOrHigher. -/
def roleHierarchy : UserRole → Nat
  | UserRole.owner => 3
  | UserRole.groupAdmin => 2
  | UserRole.user => 1

/-- hasRoleOrHigher of auth.ts.  Indexing roleHierarchy at an undefined role
yields undefined, and undefined >= n is false in JS, hence the inner match. -/
def hasRoleOrHigher (σ : Storage) (role : UserRole) : Bool :=
  match getUserAuth σ with
  | none => false
  | some auth =>
    match auth.roleProp with
    | none => false
    | some r => decide (roleHierarchy r ≥ roleHierarchy role)

/-- isOwner of auth.ts. -/
def isOwner (σ : Storage) : Bool := hasRole σ UserRole.owner

/-- isGroupAdmin of auth.ts. -/
def isGroupAdmin (σ : Storage) : Bool := hasRole σ UserRole.groupAdmin

/-- isUser of auth.ts. -/
def isUser (σ : Storage) : Bool := hasRole σ UserRole.user

/-- canManageGroup of auth.ts: owner always, group-admin on its own group,
otherwise false; auth&.groupId === groupId is false when auth is null or the
stored groupId is undefined. -/
def canManageGroup (σ : Storage) (groupId : Int) : Bool :=
  let auth := getUserAuth σ
  if isOwner σ then true
  else if isGroupAdmin σ && ((auth.bind JsVal.groupIdProp) == some groupId) then true
  else false

/-!
The Request Dispatcher (apiRequest of api.ts).  fetch is modelled as an
oracle from the built request to a response; the dispatcher's result is
paired with the list of fetch calls it issued, so that the absence of a
network attempt is the emptiness of that list.  A response is modelled by
its status, its content-type header (none when absent), its body text, and
the JSON denotation of the body (none when response.json() would raise).
-/

/-- The options bag of apiRequest: requireAuth plus the RequestInit fields
the dispatcher forwards (method, headers, body). -/
structure RequestOptions where
  requireAuth : Option Bool := none
  method : Option String := none
  headers : List (String × String) := []
  body : Option String := none
  deriving Repr, DecidableEq

/-- The request handed to fetch.  Headers are an insertion-ordered list of
name-value pairs with at most one entry per name, as in a JS object. -/
structure Request where
  url : String
  method : Option String
  headers : List (String × String)
  body : Option String
  deriving Repr, DecidableEq

/-- A fetch response. -/
structure FetchResponse (J : Type) where
  status : Nat
  contentType : Option String
  bodyText : String
  bodyJson : Option J
  deriving Repr, DecidableEq

/-- JS object update h[k] = v: overwrite in place when the key exists,
append otherwise. -/
def objSet (hs : List (String × String)) (k v : String) : List (String × String) :=
  if hs.any (fun p => p.1 == k) then
    hs.map (fun p => if p.1 == k then (k, v) else p)
  else hs ++ [(k, v)]

/-- JS object spread: fold every entry of the second object into the first. -/
def objMerge (hs extra : List (String × String)) : List (String × String) :=
  extra.foldl (fun acc p => objSet acc p.1 p.2) hs

/-- The secret selected by apiRequest: the owner password when
userAuth&.role === owner, the user password otherwise, each defaulted to the
empty string when falsy (x || empty-string). -/
def authSecret (config : JsVal) (userAuth : Option JsVal) : String :=
  if (userAuth.bind JsVal.roleProp) == some UserRole.owner then
    (config.ownerPasswordProp).getD ""
  else
    (config.userPasswordProp).getD ""

/-- The inline identity read of apiRequest: getItem, then
authData ? JSON.parse(authData) : null.  The parse is NOT wrapped in
try/catch there, so a parse failure propagates as an error. -/
def readAuthForRequest (σ : Storage) : Except Unit (Option JsVal) :=
  match σ AUTH_KEY with
  | none => Except.ok none
  | some authData =>
    if authData.truthy then
      match jsonParse authData with
      | Except.ok v => Except.ok (some v)
      | Except.error e => Except.error e
    else Except.ok none

/-- The headers object of apiRequest: Content-Type json, spread of the
caller's headers, then the auth header assignment when required. -/
def buildHeaders (config : JsVal) (userAuth : Option JsVal) (requireAuth : Bool)
    (extra : List (String × String)) : List (String × String) :=
  let base := objMerge [("Content-Type", "application/json")] extra
  if requireAuth then objSet base "X-Owner-Password" (authSecret config userAuth)
  else base

/-- JS template-literal rendering of a possibly-undefined string. -/
def jsTemplate : Option String → String
  | none => "undefined"
  | some s => s

/-- The request apiRequest builds and hands to fetch. -/
def requestOf (config : JsVal) (userAuth : Option JsVal) (requireAuth : Bool)
    (endpoint : String) (opts : RequestOptions) : Request :=
  { url := jsTemplate config.baseUrlProp ++ endpoint
    method := opts.method
    headers := buildHeaders config userAuth requireAuth opts.headers
    body := opts.body }

/-- The failures apiRequest can raise: the not-configured error, the
uncaught JSON.parse failure on the identity read, the non-2xx ApiError, and
a response.json() failure on a JSON-typed success body. -/
inductive ApiFailure where
  | notConfigured
  | authParseError
  | apiError (status : Nat) (bodyText : String)
  | responseJsonError
  deriving Repr, DecidableEq

/-- The thrown Error message; the two parse failures carry the
platform-defined SyntaxError text. -/
def ApiFailure.message : ApiFailure → String
  | ApiFailure.notConfigured => "API not configured. Please configure API settings first."
  | ApiFailure.authParseError => "SyntaxError"
  | ApiFailure.apiError status bodyText =>
      "API Error: " ++ toString status ++ " - " ++ bodyText
  | ApiFailure.responseJsonError => "SyntaxError"

/-- A successful dispatcher result: the parsed JSON body, or the empty
object returned for non-JSON success responses. -/
inductive ApiResult (J : Type) where
  | json (body : J)
  | empty
  deriving Repr, DecidableEq

/-- Whether the first character list starts with the second. -/
def charsStartWith : List Char → List Char → Bool
  | _, [] => true
  | [], _ :: _ => false
  | c :: cs, d :: ds => c == d && charsStartWith cs ds

/-- Whether the first character list contains the second as a contiguous
run. -/
def charsContain : List Char → List Char → Bool
  | [], pat => pat.isEmpty
  | c :: cs, pat => charsStartWith (c :: cs) pat || charsContain cs pat

/-- Substring test, as JS s.includes(pat). -/
def strContains (s pat : String) : Bool := charsContain s.toList pat.toList

/-- The content-type test of apiRequest:
contentType && contentType.includes(json marker). -/
def ctIndicatesJson : Option String → Bool
  | none => false
  | some ct => !ct.isEmpty && strContains ct "application/json"

/-- The response-handling tail of apiRequest: non-2xx raises ApiError with
the status and the raw body text, a JSON-typed success body is parsed and
returned, any other success yields the empty object.  response.ok is the
status lying in 200..299. -/
def handleResponse (J : Type) (resp : FetchResponse J) : Except ApiFailure (ApiResult J) :=
  if ¬(200 ≤ resp.status ∧ resp.status ≤ 299) then
    Except.error (ApiFailure.apiError resp.status resp.bodyText)
  else if ctIndicatesJson resp.contentType then
    match resp.bodyJson with
    | some j => Except.ok (ApiResult.json j)
    | none => Except.error ApiFailure.responseJsonError
  else Except.ok ApiResult.empty

/-- apiRequest of api.ts.  The second component lists the fetch calls
issued.  The configuration read happens first; with requireAuth (default
true) the identity record is read and parsed without a catch; then the one
fetch is issued and its response normalized. -/
def apiRequest (J : Type) (σ : Storage) (endpoint : String) (opts : RequestOptions)
    (net : Request → FetchResponse J) : Except ApiFailure (ApiResult J) × List Request :=
  match getApiConfig σ with
  | none => (Except.error ApiFailure.notConfigured, [])
  | some config =>
    match (if opts.requireAuth.getD true then readAuthForRequest σ else Except.ok none) with
    | Except.error _ => (Except.error ApiFailure.authParseError, [])
    | Except.ok userAuth =>
      let req := requestOf config userAuth (opts.requireAuth.getD true) endpoint opts
      (handleResponse J (net req), [req])

/-!
Concrete states used to instantiate the theorems below, matching the
scenario of the spec: configuration with base url http://x and owner
secret p1, identity with role owner.
-/

/-- The empty localStorage. -/
def emptyStorage : Storage := fun _ => none

/-- Spec scenario state: configuration with owner secret p1, identity with
role owner. -/
def scenarioStorage : Storage := fun k =>
  if k = API_CONFIG_KEY then
    some (StoredText.jsonOfConfig ⟨"http://x", some "p1", none⟩)
  else if k = AUTH_KEY then
    some (StoredText.jsonOfAuth ⟨UserRole.owner, none, none, none⟩)
  else none

/-- A state with a configuration record and no identity record. -/
def cfgOnlyStorage : Storage := fun k =>
  if k = API_CONFIG_KEY then
    some (StoredText.jsonOfConfig ⟨"http://x", some "p1", none⟩)
  else none

/-- A state whose configuration record has an empty-string owner secret. -/
def emptyStrSecretStorage : Storage := fun k =>
  if k = API_CONFIG_KEY then
    some (StoredText.jsonOfConfig ⟨"http://x", some "", none⟩)
  else none

/-- A state with a group-admin identity scoped to group 5. -/
def gaStorage : Storage := fun k =>
  if k = AUTH_KEY then
    some (StoredText.jsonOfAuth ⟨UserRole.groupAdmin, none, some 5, none⟩)
  else none

/-- A state with a well-formed configuration record and unparsable text
under the identity key. -/
def corruptAuthStorage : Storage := fun k =>
  if k = API_CONFIG_KEY then
    some (StoredText.jsonOfConfig ⟨"http://x", some "p1", some "p2"⟩)
  else if k = AUTH_KEY then some StoredText.badText
  else none

/-!
Helper lemmas about the headers object: filtering by a name absent from the
merged caller headers isolates the one auth-header assignment.
-/

theorem filter_objSet_absent (hs : List (String × String)) (k v : String)
    (h : hs.filter (fun p => p.1 == k) = []) :
    (objSet hs k v).filter (fun p => p.1 == k) = [(k, v)] := by
  have hall : ∀ p ∈ hs, ¬((fun p : String × String => p.1 == k) p = true) :=
    List.filter_eq_nil_iff.mp h
  have hany : hs.any (fun p => p.1 == k) = false := by
    rw [List.any_eq_false]
    exact hall
  simp [objSet, hany, List.filter_append, h]

theorem filter_map_objSet (t : List (String × String)) (k q v : String)
    (hqk : ¬q = k) :
    (t.map (fun p => if p.1 = q then (q, v) else p)).filter (fun p => p.1 == k)
      = t.filter (fun p => p.1 == k) := by
  induction t with
  | nil => rfl
  | cons p t ih =>
    by_cases hp : p.1 = q
    · have hpk : ¬p.1 = k := by rw [hp]; exact hqk
      simp [List.filter_cons, List.map_cons, hp, hpk, hqk, ih]
    · simp [List.filter_cons, List.map_cons, hp, ih]

theorem filter_objSet_other (hs : List (String × String)) (k q v : String)
    (hqk : ¬q = k) :
    (objSet hs q v).filter (fun p => p.1 == k) = hs.filter (fun p => p.1 == k) := by
  rcases Bool.eq_false_or_eq_true (hs.any (fun p => p.1 == q)) with h | h
  · simp [objSet, h]
    exact filter_map_objSet hs k q v hqk
  · simp [objSet, h, List.filter_append]
    exact hqk

theorem filter_objMerge (extra : List (String × String)) (hs : List (String × String))
    (k : String) (hcl : ∀ p ∈ extra, ¬p.1 = k) :
    (objMerge hs extra).filter (fun p => p.1 == k) = hs.filter (fun p => p.1 == k) := by
  induction extra generalizing hs with
  | nil => rfl
  | cons q t ih =>
    have hq : ¬q.1 = k := hcl q (List.mem_cons_self q t)
    have ht : ∀ p ∈ t, ¬p.1 = k := fun p hp => hcl p (List.mem_cons_of_mem q hp)
    show (objMerge (objSet hs q.1 q.2) t).filter (fun p => p.1 == k)
        = hs.filter (fun p => p.1 == k)
    rw [ih (objSet hs q.1 q.2) ht, filter_objSet_other hs k q.1 q.2 hq]

theorem buildHeaders_auth_filter (config : JsVal) (userAuth : Option JsVal)
    (extra : List (String × String))
    (hcl : ∀ p ∈ extra, ¬p.1 = "X-Owner-Password") :
    (buildHeaders config userAuth true extra).filter (fun p => p.1 == "X-Owner-Password")
      = [("X-Owner-Password", authSecret config userAuth)] := by
  have hbase : (objMerge [("Content-Type", "application/json")] extra).filter
      (fun p => p.1 == "X-Owner-Password") = [] := by
    rw [filter_objMerge extra _ _ hcl]
    decide
  simpa [buildHeaders] using
    filter_objSet_absent _ "X-Owner-Password" (authSecret config userAuth) hbase

theorem buildHeaders_noauth_filter (config : JsVal) (userAuth : Option JsVal)
    (extra : List (String × String))
    (hcl : ∀ p ∈ extra, ¬p.1 = "X-Owner-Password") :
    (buildHeaders config userAuth false extra).filter (fun p => p.1 == "X-Owner-Password")
      = [] := by
  show (objMerge [("Content-Type", "application/json")] extra).filter
      (fun p => p.1 == "X-Owner-Password") = []
  rw [filter_objMerge extra _ _ hcl]
  decide

/-- C1: a dispatched request with authentication required carries exactly
one entry under the fixed header name: the owner secret when the stored
identity role is owner, otherwise the user secret (empty string when the
selected secret is absent), also when no identity is stored; with
authentication not required, no such header entry is attached. -/
theorem c1_dispatcher_attaches_single_secret_header (J : Type) (σ : Storage)
    (endpoint : String) (opts : RequestOptions) (net : Request → FetchResponse J)
    (c : ApiConfig)
    (hcfg : σ API_CONFIG_KEY = some (StoredText.jsonOfConfig c))
    (hclean : ∀ p ∈ opts.headers, ¬p.1 = "X-Owner-Password") :
    (∀ a : UserAuth, opts.requireAuth.getD true = true →
      σ AUTH_KEY = some (StoredText.jsonOfAuth a) →
      ∃ req : Request, (apiRequest J σ endpoint opts net).2 = [req] ∧
        (req.headers.filter (fun p => p.1 == "X-Owner-Password")).map Prod.snd
          = [if a.role = UserRole.owner then c.ownerPassword.getD ""
             else c.userPassword.getD ""])
    ∧ (opts.requireAuth.getD true = true → σ AUTH_KEY = none →
      ∃ req : Request, (apiRequest J σ endpoint opts net).2 = [req] ∧
        (req.headers.filter (fun p => p.1 == "X-Owner-Password")).map Prod.snd
          = [c.userPassword.getD ""])
    ∧ (opts.requireAuth.getD true = false →
      ∃ req : Request, (apiRequest J σ endpoint opts net).2 = [req] ∧
        req.headers.filter (fun p => p.1 == "X-Owner-Password") = []) := by
  have hga : getApiConfig σ = some (JsVal.cfg c) := by
    simp [getApiConfig, hcfg, jsonParse, StoredText.truthy]
  refine ⟨?_, ?_, ?_⟩
  · intro a hra hak
    have hread : readAuthForRequest σ = Except.ok (some (JsVal.auth a)) := by
      simp [readAuthForRequest, hak, jsonParse, StoredText.truthy]
    refine ⟨requestOf (JsVal.cfg c) (some (JsVal.auth a)) true endpoint opts, ?_, ?_⟩
    · simp [apiRequest, hga, hra, hread]
    · rw [show (requestOf (JsVal.cfg c) (some (JsVal.auth a)) true endpoint opts).headers
            = buildHeaders (JsVal.cfg c) (some (JsVal.auth a)) true opts.headers from rfl,
          buildHeaders_auth_filter _ _ _ hclean]
      by_cases hr : a.role = UserRole.owner <;>
        simp [authSecret, JsVal.roleProp, JsVal.ownerPasswordProp,
          JsVal.userPasswordProp, hr]
  · intro hra hak
    have hread : readAuthForRequest σ = Except.ok none := by
      simp [readAuthForRequest, hak]
    refine ⟨requestOf (JsVal.cfg c) none true endpoint opts, ?_, ?_⟩
    · simp [apiRequest, hga, hra, hread]
    · rw [show (requestOf (JsVal.cfg c) none true endpoint opts).headers
            = buildHeaders (JsVal.cfg c) none true opts.headers from rfl,
          buildHeaders_auth_filter _ _ _ hclean]
      simp [authSecret, JsVal.userPasswordProp]
  · intro hra
    refine ⟨requestOf (JsVal.cfg c) none false endpoint opts, ?_, ?_⟩
    · simp [apiRequest, hga, hra]
    · rw [show (requestOf (JsVal.cfg c) none false endpoint opts).headers
            = buildHeaders (JsVal.cfg c) none false opts.headers from rfl]
      exact buildHeaders_noauth_filter _ _ _ hclean

/-- Witness for C1 at the spec scenario: an authenticated request from the
owner identity carries the single auth header with value p1, and the health
request with authentication off carries none. -/
theorem c1_dispatcher_attaches_single_secret_header_witness :
    (∃ req : Request,
      (apiRequest Unit scenarioStorage "/users" {} (fun _ => ⟨200, none, "", none⟩)).2
        = [req] ∧
      (req.headers.filter (fun p => p.1 == "X-Owner-Password")).map Prod.snd = ["p1"])
    ∧ (∃ req : Request,
      (apiRequest Unit scenarioStorage "/health" { requireAuth := some false }
          (fun _ => ⟨200, none, "", none⟩)).2 = [req] ∧
      req.headers.filter (fun p => p.1 == "X-Owner-Password") = []) := by
  constructor
  · obtain ⟨req, h1, h2⟩ :=
      (c1_dispatcher_attaches_single_secret_header Unit scenarioStorage "/users" {}
        (fun _ => ⟨200, none, "", none⟩) ⟨"http://x", some "p1", none⟩ rfl
        (by intro p hp; simp at hp)).1
        ⟨UserRole.owner, none, none, none⟩ rfl rfl
    refine ⟨req, h1, ?_⟩
    rw [h2]; decide
  · exact (c1_dispatcher_attaches_single_secret_header Unit scenarioStorage "/health"
      { requireAuth := some false } (fun _ => ⟨200, none, "", none⟩)
      ⟨"http://x", some "p1", none⟩ rfl (by intro p hp; simp at hp)).2.2 rfl

/-- C2: dispatching any request in a state whose configuration reads as
absent fails with the not-configured error and issues zero fetch calls. -/
theorem c2_not_configured_fails_before_network (J : Type) (σ : Storage)
    (endpoint : String) (opts : RequestOptions) (net : Request → FetchResponse J)
    (hcfg : getApiConfig σ = none) :
    apiRequest J σ endpoint opts net = (Except.error ApiFailure.notConfigured, []) := by
  simp [apiRequest, hcfg]

/-- Witness for C2 on the empty storage. -/
theorem c2_not_configured_fails_before_network_witness :
    apiRequest Unit emptyStorage "/users" {} (fun _ => ⟨200, none, "", none⟩)
      = (Except.error ApiFailure.notConfigured, []) :=
  c2_not_configured_fails_before_network Unit emptyStorage "/users" {}
    (fun _ => ⟨200, none, "", none⟩) rfl

/-- C3 evidence: at a state whose identity record is unparsable text, the
store accessors getUserAuth and getApiConfig treat it as absent, but the
dispatcher of apiRequest, whose inline identity read parses without a
catch, raises the parse error and never proceeds to the fetch.  This
contradicts the fail-soft reading the spec states for every read and that
getUserAuth itself implements; the inline read is documented in the source
as a stand-in for getUserAuth, so the missing catch is a slip of the code. -/
theorem c3_dispatcher_raises_on_malformed_identity :
    getUserAuth corruptAuthStorage = none
    ∧ getApiConfig corruptAuthStorage
        = some (JsVal.cfg ⟨"http://x", some "p1", some "p2"⟩)
    ∧ apiRequest Unit corruptAuthStorage "/users" {} (fun _ => ⟨200, none, "", none⟩)
        = (Except.error ApiFailure.authParseError, []) := by
  refine ⟨rfl, rfl, rfl⟩

/-- C4: isApiConfigured is true exactly when the stored configuration
record has a non-empty base url and at least one non-empty secret, and is
false when no record is stored. -/
theorem c4_is_configured_iff (σ : Storage) :
    (∀ c : ApiConfig, σ API_CONFIG_KEY = some (StoredText.jsonOfConfig c) →
      isApiConfigured σ
        = (!c.baseUrl.isEmpty
            && (!((c.ownerPassword.getD "").isEmpty)
                || !((c.userPassword.getD "").isEmpty))))
    ∧ (σ API_CONFIG_KEY = none → isApiConfigured σ = false) := by
  constructor
  · intro c h
    simp [isApiConfigured, getApiConfig, h, jsonParse, StoredText.truthy,
      JsVal.baseUrlProp, JsVal.ownerPasswordProp, JsVal.userPasswordProp, strTruthy]
    cases c.ownerPassword <;> cases c.userPassword <;>
      simp [strTruthy, show ("" : String).isEmpty = true from rfl]
  · intro h
    simp [isApiConfigured, getApiConfig, h]

/-- Witness for C4: false on an empty-string owner secret, true on the
scenario configuration, false on the empty storage. -/
theorem c4_is_configured_iff_witness :
    isApiConfigured emptyStrSecretStorage = false
    ∧ isApiConfigured scenarioStorage = true
    ∧ isApiConfigured emptyStorage = false := by
  refine ⟨?_, ?_, ?_⟩
  · have h := (c4_is_configured_iff emptyStrSecretStorage).1 ⟨"http://x", some "", none⟩ rfl
    rw [h]; decide
  · have h := (c4_is_configured_iff scenarioStorage).1 ⟨"http://x", some "p1", none⟩ rfl
    rw [h]; decide
  · exact (c4_is_configured_iff emptyStorage).2 rfl

/-- C5: a dispatched request whose response status lies outside 200..299
fails with the ApiError carrying that status and the raw body text, and the
body is never parsed. -/
theorem c5_non_success_api_error (J : Type) (σ : Storage) (endpoint : String)
    (opts : RequestOptions) (net : Request → FetchResponse J)
    (config : JsVal) (userAuth : Option JsVal)
    (hcfg : getApiConfig σ = some config)
    (hauth : (if opts.requireAuth.getD true then readAuthForRequest σ
        else Except.ok none) = Except.ok userAuth)
    (hbad : ¬(200 ≤ (net (requestOf config userAuth (opts.requireAuth.getD true)
          endpoint opts)).status
        ∧ (net (requestOf config userAuth (opts.requireAuth.getD true)
          endpoint opts)).status ≤ 299)) :
    apiRequest J σ endpoint opts net
      = (Except.error (ApiFailure.apiError
            (net (requestOf config userAuth (opts.requireAuth.getD true)
              endpoint opts)).status
            (net (requestOf config userAuth (opts.requireAuth.getD true)
              endpoint opts)).bodyText),
         [requestOf config userAuth (opts.requireAuth.getD true) endpoint opts]) := by
  simp [apiRequest, hcfg, hauth, handleResponse, hbad]

/-- Witness for C5: a 404 with body text not found yields the ApiError with
status 404, and the raised message contains that body text. -/
theorem c5_non_success_api_error_witness :
    apiRequest Unit cfgOnlyStorage "/users" {} (fun _ => ⟨404, none, "not found", none⟩)
      = (Except.error (ApiFailure.apiError 404 "not found"),
         [requestOf (JsVal.cfg ⟨"http://x", some "p1", none⟩) none true "/users" {}])
    ∧ strContains (ApiFailure.message (ApiFailure.apiError 404 "not found")) "not found"
        = true := by
  constructor
  · exact c5_non_success_api_error Unit cfgOnlyStorage "/users" {}
      (fun _ => ⟨404, none, "not found", none⟩)
      (JsVal.cfg ⟨"http://x", some "p1", none⟩) none rfl rfl (by decide)
  · decide

/-- C6: a success response whose content-type is absent or does not mark
JSON yields the empty structured result, and one whose content-type marks
JSON yields the parsed body. -/
theorem c6_success_content_type_handling (J : Type) (σ : Storage) (endpoint : String)
    (opts : RequestOptions) (net : Request → FetchResponse J)
    (config : JsVal) (userAuth : Option JsVal)
    (hcfg : getApiConfig σ = some config)
    (hauth : (if opts.requireAuth.getD true then readAuthForRequest σ
        else Except.ok none) = Except.ok userAuth)
    (hok : 200 ≤ (net (requestOf config userAuth (opts.requireAuth.getD true)
          endpoint opts)).status
        ∧ (net (requestOf config userAuth (opts.requireAuth.getD true)
          endpoint opts)).status ≤ 299) :
    (ctIndicatesJson (net (requestOf config userAuth (opts.requireAuth.getD true)
          endpoint opts)).contentType = false →
      apiRequest J σ endpoint opts net
        = (Except.ok ApiResult.empty,
           [requestOf config userAuth (opts.requireAuth.getD true) endpoint opts]))
    ∧ (∀ j : J,
      ctIndicatesJson (net (requestOf config userAuth (opts.requireAuth.getD true)
          endpoint opts)).contentType = true →
      (net (requestOf config userAuth (opts.requireAuth.getD true)
          endpoint opts)).bodyJson = some j →
      apiRequest J σ endpoint opts net
        = (Except.ok (ApiResult.json j),
           [requestOf config userAuth (opts.requireAuth.getD true) endpoint opts])) := by
  constructor
  · intro hct
    simp [apiRequest, hcfg, hauth, handleResponse, hok.1, hok.2, hct]
  · intro j hct hj
    simp [apiRequest, hcfg, hauth, handleResponse, hok.1, hok.2, hct, hj]

/-- Witness for C6: a 204-style delete response with no content-type yields
the empty result, and a JSON-typed success returns the parsed body. -/
theorem c6_success_content_type_handling_witness :
    apiRequest Unit cfgOnlyStorage "/users/1" { method := some "DELETE" }
        (fun _ => ⟨204, none, "", none⟩)
      = (Except.ok ApiResult.empty,
         [requestOf (JsVal.cfg ⟨"http://x", some "p1", none⟩) none true "/users/1"
            { method := some "DELETE" }])
    ∧ apiRequest String cfgOnlyStorage "/users" {}
        (fun _ => ⟨200, some "application/json", "[]", some "parsed"⟩)
      = (Except.ok (ApiResult.json "parsed"),
         [requestOf (JsVal.cfg ⟨"http://x", some "p1", none⟩) none true "/users" {}]) := by
  constructor
  · exact (c6_success_content_type_handling Unit cfgOnlyStorage "/users/1"
      { method := some "DELETE" } (fun _ => ⟨204, none, "", none⟩)
      (JsVal.cfg ⟨"http://x", some "p1", none⟩) none rfl rfl (by decide)).1 rfl
  · exact (c6_success_content_type_handling String cfgOnlyStorage "/users" {}
      (fun _ => ⟨200, some "application/json", "[]", some "parsed"⟩)
      (JsVal.cfg ⟨"http://x", some "p1", none⟩) none rfl rfl (by decide)).2
      "parsed" (by decide) rfl

/-- C7: hasRoleOrHigher follows the total order owner over group-admin over
user: at least user holds for every stored role, at least group-admin only
for group-admin and owner, at least owner only for owner, and every query
is false when no identity is readable. -/
theorem c7_role_order (σ : Storage) (r : UserRole) :
    (∀ a : UserAuth, σ AUTH_KEY = some (StoredText.jsonOfAuth a) →
        hasRoleOrHigher σ UserRole.user = true
      ∧ hasRoleOrHigher σ UserRole.groupAdmin
          = (decide (a.role = UserRole.groupAdmin) || decide (a.role = UserRole.owner))
      ∧ hasRoleOrHigher σ UserRole.owner = decide (a.role = UserRole.owner))
    ∧ (getUserAuth σ = none → hasRoleOrHigher σ r = false) := by
  constructor
  · intro a h
    refine ⟨?_, ?_, ?_⟩ <;>
      · simp [hasRoleOrHigher, getUserAuth, h, jsonParse, StoredText.truthy,
          JsVal.roleProp]
        cases a.role <;> simp [roleHierarchy]
  · intro h
    simp [hasRoleOrHigher, h]

/-- Witness for C7 at the owner identity and the empty storage. -/
theorem c7_role_order_witness :
    hasRoleOrHigher scenarioStorage UserRole.groupAdmin = true
    ∧ hasRoleOrHigher scenarioStorage UserRole.owner = true
    ∧ hasRoleOrHigher emptyStorage UserRole.user = false := by
  refine ⟨?_, ?_, ?_⟩
  · have h := ((c7_role_order scenarioStorage UserRole.user).1
      ⟨UserRole.owner, none, none, none⟩ rfl).2.1
    rw [h]; decide
  · have h := ((c7_role_order scenarioStorage UserRole.user).1
      ⟨UserRole.owner, none, none, none⟩ rfl).2.2
    rw [h]; decide
  · exact (c7_role_order emptyStorage UserRole.user).2 rfl

/-- C8: canManageGroup is true for an owner identity regardless of its
group, true for a group-admin identity exactly on its own stored group, and
false otherwise, including when no identity is readable. -/
theorem c8_can_manage_group (σ : Storage) (g : Int) :
    (∀ a : UserAuth, σ AUTH_KEY = some (StoredText.jsonOfAuth a) →
      canManageGroup σ g
        = (decide (a.role = UserRole.owner)
            || (decide (a.role = UserRole.groupAdmin) && (a.groupId == some g))))
    ∧ (getUserAuth σ = none → canManageGroup σ g = false) := by
  constructor
  · intro a h
    simp [canManageGroup, isOwner, isGroupAdmin, hasRole, getUserAuth, h, jsonParse,
      StoredText.truthy, JsVal.roleProp, JsVal.groupIdProp]
    cases a.role <;> cases hg : a.groupId <;> simp [hg, beq_eq_decide]
  · intro h
    simp [canManageGroup, isOwner, isGroupAdmin, hasRole, h]

/-- Witness for C8: a group-admin of group 5 manages group 5, not group 6;
nobody manages anything in the empty storage. -/
theorem c8_can_manage_group_witness :
    canManageGroup gaStorage 5 = true
    ∧ canManageGroup gaStorage 6 = false
    ∧ canManageGroup emptyStorage 5 = false := by
  refine ⟨?_, ?_, ?_⟩
  · have h := (c8_can_manage_group gaStorage 5).1
      ⟨UserRole.groupAdmin, none, some 5, none⟩ rfl
    rw [h]; decide
  · have h := (c8_can_manage_group gaStorage 6).1
      ⟨UserRole.groupAdmin, none, some 5, none⟩ rfl
    rw [h]; decide
  · exact (c8_can_manage_group emptyStorage 5).2 rfl

/-- C9: a write followed by a read with no intervening clear returns a
value deeply equal to the written record, for both stores; after a clear
the read is absent and the readiness predicate is false. -/
theorem c9_store_round_trip (σ : Storage) (c : ApiConfig) (a : UserAuth) :
    getApiConfig (saveApiConfig σ c) = some (JsVal.cfg c)
    ∧ getUserAuth (saveUserAuth σ a) = some (JsVal.auth a)
    ∧ getApiConfig (clearApiConfig σ) = none
    ∧ getUserAuth (clearUserAuth σ) = none
    ∧ isApiConfigured (clearApiConfig σ) = false := by
  refine ⟨?_, ?_, ?_, ?_, ?_⟩ <;>
    simp [getApiConfig, getUserAuth, saveApiConfig, saveUserAuth, clearApiConfig,
      clearUserAuth, setItem, removeItem, isApiConfigured, jsonParse, StoredText.truthy]

/-- C10: the two stores are independent: writing or clearing either record
leaves the other key, and hence the other read, unchanged. -/
theorem c10_store_independence (σ : Storage) (c : ApiConfig) (a : UserAuth) :
    getUserAuth (saveApiConfig σ c) = getUserAuth σ
    ∧ getUserAuth (clearApiConfig σ) = getUserAuth σ
    ∧ getApiConfig (saveUserAuth σ a) = getApiConfig σ
    ∧ getApiConfig (clearUserAuth σ) = getApiConfig σ
    ∧ (saveApiConfig σ c) AUTH_KEY = σ AUTH_KEY
    ∧ (clearApiConfig σ) AUTH_KEY = σ AUTH_KEY
    ∧ (saveUserAuth σ a) API_CONFIG_KEY = σ API_CONFIG_KEY
    ∧ (clearUserAuth σ) API_CONFIG_KEY = σ API_CONFIG_KEY := by
  have hk : AUTH_KEY ≠ API_CONFIG_KEY := by decide
  refine ⟨?_, ?_, ?_, ?_, ?_, ?_, ?_, ?_⟩ <;>
    simp [getApiConfig, getUserAuth, saveApiConfig, saveUserAuth, clearApiConfig,
      clearUserAuth, setItem, removeItem, hk, hk.symm, API_CONFIG_KEY, AUTH_KEY]
